import Mathlib

/-!
Verification development for a Cypress end-to-end test framework.

The repository consists of an environment configuration resolver
(cypress.config.ts), an HTTP verification helper facade (ApiHelper in
cypress/utils/api-helper.ts), a database helper facade (DbHelper) and two
Node-side database tasks (executeQuery, executeStoredProcedure).

JavaScript primitive values are modelled by the inductive JsVal; JS objects
are modelled as association lists keyed by strings.  Chai assertions become
boolean pass/fail predicates; exceptions become Except values; the
side-effecting connection lifecycle of the database tasks is made
observable through an explicit event trace.
-/

/-- JavaScript primitive values, as they occur in response bodies, headers
and database rows.  Strict equality on these values is structural equality:
a string is never strictly equal to a number. -/
inductive JsVal where
  | vNum : Int → JsVal
  | vStr : String → JsVal
  | vBool : Bool → JsVal
  | vNull : JsVal
  | vUndefined : JsVal
deriving DecidableEq, Repr

/-- JavaScript strict equality on primitive values. -/
def jsStrictEq (a b : JsVal) : Bool :=
  decide (a = b)

/-- Chai greaterThan assertion against an integer bound: passes only when
the value is a number strictly above the bound. -/
def jsGreaterThan (v : JsVal) (bound : Int) : Bool :=
  match v with
  | .vNum m => decide (bound < m)
  | _ => false

/-- Chai eq assertion against an integer: strict equality, so it passes
only when the value is that exact number. -/
def jsEqNum (v : JsVal) (n : Int) : Bool :=
  match v with
  | .vNum m => decide (m = n)
  | _ => false

/-- Whether the character list starting the second argument begins with the
first argument. -/
def listStartsWith : List Char → List Char → Bool
  | [], _ => true
  | _ :: _, [] => false
  | a :: as, b :: bs => a == b && listStartsWith as bs

/-- Whether the needle occurs as a contiguous run inside the haystack. -/
def listContains (needle : List Char) : List Char → Bool
  | [] => listStartsWith needle []
  | c :: hs => listStartsWith needle (c :: hs) || listContains needle hs

/-- JS String.includes and the chai include assertion on strings: substring
containment. -/
def strContains (haystack needle : String) : Bool :=
  listContains needle.toList haystack.toList

/-- The response object produced by cy.request and consumed by the
ApiHelper verification methods: status, body (a JS object modelled as an
association list), headers and duration. -/
structure ApiResponse where
  status : Int
  body : List (String × JsVal)
  headers : List (String × String)
  duration : Int
deriving DecidableEq, Repr

/-- JS property read on an object: the bound value when the key is present,
undefined otherwise. -/
def jsGet (obj : List (String × JsVal)) (key : String) : JsVal :=
  (obj.lookup key).getD .vUndefined

/-- Lowercase one character, as JS toLowerCase acts on the ASCII letters
appearing in header names. -/
def jsLowerChar (c : Char) : Char :=
  if 65 ≤ c.toNat ∧ c.toNat ≤ 90 then Char.ofNat (c.toNat + 32) else c

/-- JS String.toLowerCase restricted to the ASCII range. -/
def jsToLower (s : String) : String :=
  String.mk (s.data.map jsLowerChar)

namespace ApiHelper

/-- ApiHelper.verifyStatusCode from api-helper.ts: asserts
response.status equals the expected status. -/
def verifyStatusCode (response : ApiResponse) (expectedStatus : Int) : Bool :=
  decide (response.status = expectedStatus)

/-- ApiHelper.verifyBodyProperty from api-helper.ts: asserts the body has
the named own property. -/
def verifyBodyProperty (response : ApiResponse) (property : String) : Bool :=
  (response.body.lookup property).isSome

/-- ApiHelper.verifyBodyPropertyValue from api-helper.ts: reads the named
property off the body and asserts strict equality with the expected
value. -/
def verifyBodyPropertyValue (response : ApiResponse) (property : String)
    (value : JsVal) : Bool :=
  jsStrictEq (jsGet response.body property) value

/-- ApiHelper.verifyHeader from api-helper.ts: lowercases the header-name
argument, asserts the headers object has that lowercased name as a
property, and, when a truthy expected value is supplied, additionally
asserts the header value contains it as a substring.  The guard on the
expected value is JS truthiness, so the empty string skips the value
check. -/
def verifyHeader (response : ApiResponse) (headerName : String)
    (expectedValue : Option String) : Bool :=
  match response.headers.lookup (jsToLower headerName) with
  | none => false
  | some v =>
    match expectedValue with
    | none => true
    | some e => if e = "" then true else strContains v e

end ApiHelper

/-- Database configuration, from the DbConfig interface in db-helper.ts and
db-tasks.ts. -/
structure DbConfig where
  server : String
  database : String
  user : String
  password : String
  port : Option Int := none
  encrypt : Option Bool := none
  trustServerCertificate : Option Bool := none
deriving DecidableEq, Repr

/-- One row of a query recordset: a JS object. -/
def DbRow := List (String × JsVal)
deriving DecidableEq, Repr

/-- The DbResult interface from db-helper.ts: success flag, optional data,
optional rowsAffected, optional error message. -/
structure DbResult where
  success : Bool
  data : Option (List DbRow) := none
  rowsAffected : Option (List Int) := none
  error : Option String := none
deriving DecidableEq, Repr

/-- Outcome of running a request against an open connection pool: either
the mssql driver throws, or it yields a recordset and rowsAffected. -/
inductive QueryOutcome where
  | throwErr : String → QueryOutcome
  | ok : List DbRow → List Int → QueryOutcome
deriving DecidableEq, Repr

/-- Outcome of sql.connect followed by the request: connecting itself may
throw before any pool exists, or a pool is created and the request runs. -/
inductive ConnectOutcome where
  | connectFail : String → ConnectOutcome
  | connected : QueryOutcome → ConnectOutcome
deriving DecidableEq, Repr

/-- True exactly when neither connecting nor executing threw. -/
def outcomeOk : ConnectOutcome → Bool
  | .connected (.ok _ _) => true
  | _ => false

/-- Observable connection-pool lifecycle events of one database task
call. -/
inductive DbEvent where
  | poolOpened
  | poolClosed
deriving DecidableEq, Repr

/-- The environment supplies the behaviour of sql.connect plus
pool.request().query(q) for a given query string and configuration. -/
def DbExec := String → DbConfig → ConnectOutcome

/-- The environment supplies the behaviour of sql.connect plus binding the
parameters and request.execute(procedureName). -/
def SpExec := String → List (String × JsVal) → DbConfig → ConnectOutcome

/-- executeQuery from db-tasks.ts: connect, run the query, and return a
DbResult; any error is caught and becomes success false with the message;
the finally block closes the pool whenever one was created.  The second
component is the trace of pool lifecycle events. -/
def executeQuery (exec : DbExec) (query : String) (config : DbConfig) :
    DbResult × List DbEvent :=
  match exec query config with
  | .connectFail msg =>
    ({ success := false, error := some msg }, [])
  | .connected (.throwErr msg) =>
    ({ success := false, error := some msg }, [.poolOpened, .poolClosed])
  | .connected (.ok recordset rowsAffected) =>
    ({ success := true, data := some recordset, rowsAffected := some rowsAffected },
     [.poolOpened, .poolClosed])

/-- executeStoredProcedure from db-tasks.ts: same connection lifecycle as
executeQuery; the parameters object defaults to empty when absent and its
entries are bound as named inputs before execution. -/
def executeStoredProcedure (exec : SpExec) (procedureName : String)
    (parameters : Option (List (String × JsVal))) (config : DbConfig) :
    DbResult × List DbEvent :=
  match exec procedureName (parameters.getD []) config with
  | .connectFail msg =>
    ({ success := false, error := some msg }, [])
  | .connected (.throwErr msg) =>
    ({ success := false, error := some msg }, [.poolOpened, .poolClosed])
  | .connected (.ok recordset rowsAffected) =>
    ({ success := true, data := some recordset, rowsAffected := some rowsAffected },
     [.poolOpened, .poolClosed])

/-- A pool-event trace is well formed when opens and closes alternate
starting with an open and every opened pool is closed by the end: no close
without a prior open, and no open left pending on return. -/
def poolBalanced : Nat → List DbEvent → Bool
  | pending, [] => pending == 0
  | pending, .poolOpened :: rest => poolBalanced (pending + 1) rest
  | pending, .poolClosed :: rest => pending != 0 && poolBalanced (pending - 1) rest

namespace DbHelper

/-- The message thrown by DbHelper.getConfig when no configuration was
stored. -/
def configNotSetMsg : String :=
  "Database configuration not set. Call DbHelper.setConfig() first."

/-- DbHelper.setConfig from db-helper.ts: overwrite the process-wide
static configuration field. -/
def setConfig (_st : Option DbConfig) (config : DbConfig) : Option DbConfig :=
  some config

/-- DbHelper.getConfig from db-helper.ts: return the stored configuration,
throwing when it was never set. -/
def getConfig (st : Option DbConfig) : Except String DbConfig :=
  match st with
  | none => .error configNotSetMsg
  | some config => .ok config

/-- DbHelper.query from db-helper.ts: take the override configuration when
one is supplied (JS truthiness short-circuits getConfig), otherwise the
stored one, then dispatch the dbQuery task.  Returns the task result and
the configuration field after the call, which the body never writes. -/
def query (st : Option DbConfig) (q : String) (customConfig : Option DbConfig)
    (exec : DbExec) : Except String DbResult × Option DbConfig :=
  (match customConfig with
   | some config => .ok (executeQuery exec q config).1
   | none =>
     match getConfig st with
     | .error msg => .error msg
     | .ok config => .ok (executeQuery exec q config).1,
   st)

/-- DbHelper.executeStoredProcedure from db-helper.ts: same configuration
resolution as query, dispatching the dbStoredProcedure task. -/
def execStoredProc (st : Option DbConfig) (procedureName : String)
    (parameters : Option (List (String × JsVal))) (customConfig : Option DbConfig)
    (exec : SpExec) : Except String DbResult × Option DbConfig :=
  (match customConfig with
   | some config => .ok (executeStoredProcedure exec procedureName parameters config).1
   | none =>
     match getConfig st with
     | .error msg => .error msg
     | .ok config => .ok (executeStoredProcedure exec procedureName parameters config).1,
   st)

/-- The COUNT query string built by verifyRecordExists, verifyRecordNotExists
and getRecordCount. -/
def countQuery (tableName whereClause : String) : String :=
  "SELECT COUNT(*) as count FROM " ++ tableName ++ " WHERE " ++ whereClause

/-- The count field of the first row of the result data, as the JS
expression result.data[0].count evaluates (undefined when absent). -/
def firstCount (result : DbResult) : JsVal :=
  match result.data with
  | some (row :: _) => jsGet row "count"
  | _ => .vUndefined

/-- DbHelper.verifyRecordExists from db-helper.ts: run the COUNT query and
assert first that it succeeded and then that the count is greater than
zero.  The Bool is the chai assertion verdict; a thrown configuration
error surfaces as the Except error. -/
def verifyRecordExists (st : Option DbConfig) (tableName whereClause : String)
    (exec : DbExec) : Except String Bool :=
  match (query st (countQuery tableName whereClause) none exec).1 with
  | .error msg => .error msg
  | .ok result => .ok (result.success && jsGreaterThan (firstCount result) 0)

/-- DbHelper.verifyRecordNotExists from db-helper.ts: run the COUNT query
and assert first that it succeeded and then that the count equals zero. -/
def verifyRecordNotExists (st : Option DbConfig) (tableName whereClause : String)
    (exec : DbExec) : Except String Bool :=
  match (query st (countQuery tableName whereClause) none exec).1 with
  | .error msg => .error msg
  | .ok result => .ok (result.success && jsEqNum (firstCount result) 0)

end DbHelper

/-- Environment configuration record exported by a per-environment config
file; the hard-coded fallback carries only the base URL. -/
structure EnvConfig where
  baseUrl : String
  envTag : Option String := none
deriving DecidableEq, Repr

/-- The environment identifier from cypress.config.ts: the ENV process
variable when set and truthy, otherwise the literal dev (JS or on strings
treats the empty string as falsy). -/
def environmentFrom (envVar : Option String) : String :=
  match envVar with
  | none => "dev"
  | some s => if s = "" then "dev" else s

/-- The hard-coded default configuration substituted on load failure. -/
def defaultEnvConfig : EnvConfig :=
  { baseUrl := "https://example.cypress.io" }

/-- The console.warn message emitted on load failure. -/
def envWarnMsg (environment : String) : String :=
  "Could not load config for environment: " ++ environment ++ ", using default config"

/-- The try/catch block of cypress.config.ts: attempt the require of the
named config artifact (the loader argument stands for the require call,
which either yields the exported default or throws); on a throw, warn and
fall back to the hard-coded default.  The second component collects the
warnings emitted. -/
def resolveEnvConfig (loader : String → Except String EnvConfig)
    (environment : String) : EnvConfig × List String :=
  match loader environment with
  | .ok c => (c, [])
  | .error _ => (defaultEnvConfig, [envWarnMsg environment])

/-- Claim C1: with no override, DbHelper.query before any setConfig throws
the configuration-not-set error with its exact message; after setConfig it
does not throw and yields a DbResult whose success flag is true exactly
when the underlying execution did not throw, for every SQL string. -/
theorem claim_C1_query_config_gate (sql : String) (exec : DbExec) (cfg : DbConfig) :
    (DbHelper.query none sql none exec).1 =
      .error "Database configuration not set. Call DbHelper.setConfig() first." ∧
    ∃ r : DbResult,
      (DbHelper.query (DbHelper.setConfig none cfg) sql none exec).1 = .ok r ∧
      (r.success = outcomeOk (exec sql cfg)) := by
  refine ⟨rfl, (executeQuery exec sql cfg).1, rfl, ?_⟩
  unfold executeQuery outcomeOk
  cases h : exec sql cfg with
  | connectFail m => simp [h]
  | connected q => cases q <;> simp [h]

/-- Claim C2: the database tasks executeQuery and executeStoredProcedure
return a DbResult value on every outcome of the underlying driver: a throw
while connecting or executing is caught and becomes success false with the
thrown message, and a successful execution becomes success true with the
recordset and rowsAffected. -/
theorem claim_C2_tasks_catch_all (exec : DbExec) (spexec : SpExec)
    (q pname : String) (params : Option (List (String × JsVal)))
    (c : DbConfig) (m : String) (d : List DbRow) (ra : List Int) :
    (exec q c = .connectFail m →
      (executeQuery exec q c).1 = { success := false, error := some m }) ∧
    (exec q c = .connected (.throwErr m) →
      (executeQuery exec q c).1 = { success := false, error := some m }) ∧
    (exec q c = .connected (.ok d ra) →
      (executeQuery exec q c).1 =
        { success := true, data := some d, rowsAffected := some ra }) ∧
    (spexec pname (params.getD []) c = .connectFail m →
      (executeStoredProcedure spexec pname params c).1 =
        { success := false, error := some m }) ∧
    (spexec pname (params.getD []) c = .connected (.throwErr m) →
      (executeStoredProcedure spexec pname params c).1 =
        { success := false, error := some m }) ∧
    (spexec pname (params.getD []) c = .connected (.ok d ra) →
      (executeStoredProcedure spexec pname params c).1 =
        { success := true, data := some d, rowsAffected := some ra }) := by
  refine ⟨?_, ?_, ?_, ?_, ?_, ?_⟩ <;>
    intro h <;> simp [executeQuery, executeStoredProcedure, h]

/-- Sample configuration used by witnesses. -/
def sampleConfig : DbConfig :=
  { server := "localhost", database := "TestDB", user := "sa", password := "pw" }

/-- Witness for claim C2 at a concrete driver behaviour: a throw during
connect is returned as a success false result carrying the message. -/
theorem claim_C2_tasks_catch_all_witness :
    (executeQuery (fun _ _ => .connectFail "ECONNREFUSED") "SELECT 1" sampleConfig).1 =
      { success := false, error := some "ECONNREFUSED" } :=
  (claim_C2_tasks_catch_all (fun _ _ => .connectFail "ECONNREFUSED")
    (fun _ _ _ => .connectFail "ECONNREFUSED") "SELECT 1" "p" none sampleConfig
    "ECONNREFUSED" [] []).1 rfl

/-- Claim C3: the resolver takes the environment identifier from the ENV
variable with dev as the default; when the config artifact loads it
returns exactly the loaded configuration with no warning, and when the
load throws it warns and returns exactly the hard-coded default with base
URL https://example.cypress.io; being a total function it never raises. -/
theorem claim_C3_env_config_fallback (loader : String → Except String EnvConfig)
    (envVar : Option String) (c : EnvConfig) (m : String) :
    (loader (environmentFrom envVar) = .ok c →
      resolveEnvConfig loader (environmentFrom envVar) = (c, [])) ∧
    (loader (environmentFrom envVar) = .error m →
      resolveEnvConfig loader (environmentFrom envVar) =
        (defaultEnvConfig, [envWarnMsg (environmentFrom envVar)])) ∧
    environmentFrom none = "dev" ∧
    defaultEnvConfig.baseUrl = "https://example.cypress.io" := by
  refine ⟨?_, ?_, rfl, rfl⟩ <;> intro h <;> simp [resolveEnvConfig, h]

/-- Witness for claim C3 at concrete loaders: a loader that throws for the
qa environment produces the default plus warning, and a loader that
yields a config for dev produces exactly that config and no warning. -/
theorem claim_C3_env_config_fallback_witness :
    resolveEnvConfig (fun _ => .error "module not found") "qa" =
      (defaultEnvConfig, [envWarnMsg "qa"]) ∧
    resolveEnvConfig (fun _ => .ok { baseUrl := "https://dev.example.com" }) "dev" =
      ({ baseUrl := "https://dev.example.com" }, []) :=
  ⟨(claim_C3_env_config_fallback (fun _ => .error "module not found") (some "qa")
      defaultEnvConfig "module not found").2.1 rfl,
   (claim_C3_env_config_fallback (fun _ => .ok { baseUrl := "https://dev.example.com" })
      (some "dev") { baseUrl := "https://dev.example.com" } "x").1 rfl⟩

/-- Claim C4: verifyRecordExists and verifyRecordNotExists issue the query
SELECT COUNT(*) as count FROM table WHERE clause; the first passes exactly
when that query succeeded and its count is greater than zero, the second
exactly when it succeeded and the count equals zero, and both fail rather
than pass when the underlying query did not succeed. -/
theorem claim_C4_count_verifiers (cfg : DbConfig) (t w : String) (exec : DbExec) :
    DbHelper.verifyRecordExists (some cfg) t w exec =
      .ok ((executeQuery exec (DbHelper.countQuery t w) cfg).1.success &&
        jsGreaterThan (DbHelper.firstCount (executeQuery exec (DbHelper.countQuery t w) cfg).1) 0) ∧
    DbHelper.verifyRecordNotExists (some cfg) t w exec =
      .ok ((executeQuery exec (DbHelper.countQuery t w) cfg).1.success &&
        jsEqNum (DbHelper.firstCount (executeQuery exec (DbHelper.countQuery t w) cfg).1) 0) ∧
    ((executeQuery exec (DbHelper.countQuery t w) cfg).1.success = false →
      DbHelper.verifyRecordExists (some cfg) t w exec = .ok false ∧
      DbHelper.verifyRecordNotExists (some cfg) t w exec = .ok false) := by
  refine ⟨rfl, rfl, fun h => ⟨?_, ?_⟩⟩ <;>
    simp [DbHelper.verifyRecordExists, DbHelper.verifyRecordNotExists,
      DbHelper.query, DbHelper.getConfig, h]

/-- Witness for claim C4 at a concrete failing driver: when the connection
is refused neither verifier passes. -/
theorem claim_C4_count_verifiers_witness :
    DbHelper.verifyRecordExists (some sampleConfig) "Users" "id = 1"
      (fun _ _ => .connectFail "refused") = .ok false ∧
    DbHelper.verifyRecordNotExists (some sampleConfig) "Users" "id = 1"
      (fun _ _ => .connectFail "refused") = .ok false :=
  (claim_C4_count_verifiers sampleConfig "Users" "id = 1"
    (fun _ _ => .connectFail "refused")).2.2 rfl

/-- Claim C5: verifyStatusCode passes exactly when the response status
equals the expected code, for every integer code, including 404 and
500. -/
theorem claim_C5_status_code (resp : ApiResponse) (code : Int) :
    (ApiHelper.verifyStatusCode resp code = true ↔ resp.status = code) ∧
    ApiHelper.verifyStatusCode
      { status := 404, body := [], headers := [], duration := 0 } 404 = true ∧
    ApiHelper.verifyStatusCode
      { status := 500, body := [], headers := [], duration := 0 } 404 = false := by
  refine ⟨?_, by decide, by decide⟩
  simp [ApiHelper.verifyStatusCode]

/-- Counterexample to claim C6: verifyHeader lowercases only its argument
and looks that lowercased name up verbatim among the stored keys, so with
the header stored under the key Content-Type (capitalised) the call
verifyHeader(resp, Content-Type) fails even though a content type header
is present: the claim is not insensitive to the casing of the stored
key. -/
theorem claim_C6_counterexample :
    ApiHelper.verifyHeader
      { status := 200, body := [],
        headers := [("Content-Type", "application/json")], duration := 0 }
      "Content-Type" none = false := by
  decide

/-- Claim C6 as amended: verifyHeader is case-insensitive in the
header-name argument only, passing exactly when the lowercased argument
occurs verbatim as a stored header key; when a non-empty expected value is
supplied it additionally passes exactly when the stored value contains it
as a substring. -/
theorem claim_C6_header_case (resp : ApiResponse) (name alt e v : String) :
    (∀ ev : Option String, jsToLower alt = jsToLower name →
      ApiHelper.verifyHeader resp alt ev = ApiHelper.verifyHeader resp name ev) ∧
    (ApiHelper.verifyHeader resp name none = true ↔
      (resp.headers.lookup (jsToLower name)).isSome = true) ∧
    (resp.headers.lookup (jsToLower name) = some v → e ≠ "" →
      (ApiHelper.verifyHeader resp name (some e) = true ↔ strContains v e = true)) := by
  refine ⟨fun ev h => ?_, ?_, fun hl he => ?_⟩
  · unfold ApiHelper.verifyHeader
    rw [h]
  · unfold ApiHelper.verifyHeader
    cases resp.headers.lookup (jsToLower name) <;> simp
  · simp [ApiHelper.verifyHeader, hl, he]

/-- Sample response used by the claim C6 witness: the header key is stored
lowercase, as the runtime normalises response headers. -/
def sampleResponse : ApiResponse :=
  { status := 200, body := [("id", .vStr "1")],
    headers := [("content-type", "application/json; charset=utf-8")],
    duration := 120 }

/-- Witness for the amended claim C6 at a concrete response: the
capitalised argument finds the lowercase stored key, and the substring
check on the expected value passes. -/
theorem claim_C6_header_case_witness :
    ApiHelper.verifyHeader sampleResponse "Content-Type" (some "application/json") = true :=
  ((claim_C6_header_case sampleResponse "Content-Type" "x" "application/json"
    "application/json; charset=utf-8").2.2 (by decide) (by decide)).mpr (by decide)

/-- Claim C7: verifyBodyPropertyValue compares the property read off the
body with the expected value under strict equality, so a string is never
equal to a number: at body id bound to the string 1 and expected number 1
the assertion fails. -/
theorem claim_C7_strict_equality (resp : ApiResponse) (prop : String) (val : JsVal) :
    (ApiHelper.verifyBodyPropertyValue resp prop val = true ↔
      jsGet resp.body prop = val) ∧
    ApiHelper.verifyBodyPropertyValue
      { status := 200, body := [("id", .vStr "1")], headers := [], duration := 0 }
      "id" (.vNum 1) = false := by
  refine ⟨?_, by decide⟩
  simp [ApiHelper.verifyBodyPropertyValue, jsStrictEq]

/-- Claim C8: every database task call that opens a connection pool closes
it before returning, on the success path and on the error path alike: the
event trace of each call is balanced, and whenever connecting succeeded
the trace is exactly one open followed by its close, so no pool outlives
its call and none is reused across calls. -/
theorem claim_C8_pool_closed (exec : DbExec) (spexec : SpExec) (q pname : String)
    (params : Option (List (String × JsVal))) (c : DbConfig) :
    poolBalanced 0 (executeQuery exec q c).2 = true ∧
    poolBalanced 0 (executeStoredProcedure spexec pname params c).2 = true ∧
    (∀ qo, exec q c = .connected qo →
      (executeQuery exec q c).2 = [.poolOpened, .poolClosed]) ∧
    (∀ qo, spexec pname (params.getD []) c = .connected qo →
      (executeStoredProcedure spexec pname params c).2 = [.poolOpened, .poolClosed]) := by
  refine ⟨?_, ?_, fun qo h => ?_, fun qo h => ?_⟩
  · unfold executeQuery
    rcases exec q c with m | qo
    · rfl
    · cases qo <;> rfl
  · unfold executeStoredProcedure
    rcases spexec pname (params.getD []) c with m | qo
    · rfl
    · cases qo <;> rfl
  · cases qo <;> simp [executeQuery, h]
  · cases qo <;> simp [executeStoredProcedure, h]

/-- Witness for claim C8 at a concrete driver behaviour: a query that
throws after the pool opened still yields the open-then-close trace. -/
theorem claim_C8_pool_closed_witness :
    (executeQuery (fun _ _ => .connected (.throwErr "bad SQL")) "SELEC 1" sampleConfig).2 =
      [.poolOpened, .poolClosed] :=
  (claim_C8_pool_closed (fun _ _ => .connected (.throwErr "bad SQL"))
    (fun _ _ _ => .connectFail "x") "SELEC 1" "p" none sampleConfig).2.2.1
    (.throwErr "bad SQL") rfl

/-- Claim C9: supplying an override configuration short-circuits the
getConfig call, so query and executeStoredProcedure with an override never
throw the configuration-not-set error, for every stored state including
none; the stored configuration field is returned unchanged, and a later
call without an override still resolves whatever setConfig last stored. -/
theorem claim_C9_override_frame (st : Option DbConfig) (sql pname sql2 : String)
    (params : Option (List (String × JsVal))) (c cfg0 : DbConfig)
    (exec exec2 : DbExec) (spexec : SpExec) :
    (DbHelper.query st sql (some c) exec).1 = .ok (executeQuery exec sql c).1 ∧
    (DbHelper.query st sql (some c) exec).2 = st ∧
    (DbHelper.execStoredProc st pname params (some c) spexec).1 =
      .ok (executeStoredProcedure spexec pname params c).1 ∧
    (DbHelper.execStoredProc st pname params (some c) spexec).2 = st ∧
    (DbHelper.query
        (DbHelper.query (DbHelper.setConfig st cfg0) sql (some c) exec).2
        sql2 none exec2).1 = .ok (executeQuery exec2 sql2 cfg0).1 :=
  ⟨rfl, rfl, rfl, rfl, rfl⟩

/-- Claim C10: an empty-string expected value is falsy, so the value check
is skipped and verifyHeader behaves exactly as with no expected value,
passing exactly when the lowercased header name is a stored key. -/
theorem claim_C10_empty_expected (resp : ApiResponse) (name : String) :
    ApiHelper.verifyHeader resp name (some "") = ApiHelper.verifyHeader resp name none ∧
    (ApiHelper.verifyHeader resp name (some "") = true ↔
      (resp.headers.lookup (jsToLower name)).isSome = true) := by
  unfold ApiHelper.verifyHeader
  cases resp.headers.lookup (jsToLower name) <;> simp
